import Mathlib

/-!
Verification development for the YoutubeAudioDownloader repository.

The repository's `yt_downloader.py` interleaves several revisions of the
same functions (the file contains two signatures for
`download_youtube_video` and statements displaced around the docstring);
the embedding below follows the merged control flow at the cited lines,
in the order the statements appear in the file: archive load
(lines 154-159), transcoder gate (lines 173-205, whose condition is the
one documented at line 170, `audio_format in ('wav','mp3')`), list-formats
short-circuit (lines 238-244), and the retry loop (lines 274-353).

Machine-level effects (file system, network, user prompts, the yt-dlp
provider, the mutagen tag writer) are modelled as explicit oracles in an
environment record; the functions below mirror the Python control flow
over those oracles.  Python's `\w` character class is modelled over
ASCII, which covers the identifier alphabet the program matches.
-/

/-- Python `str.strip()` on ASCII whitespace: drop leading and trailing
whitespace characters. -/
def pyStrip (s : String) : String :=
  String.mk (((s.data.dropWhile Char.isWhitespace).reverse.dropWhile Char.isWhitespace).reverse)

/-- Python `str.lower()` restricted to ASCII letters. -/
def pyLower (s : String) : String :=
  String.mk (s.data.map Char.toLower)

/-- Does `p` occur at the head of `s`?  (Substring matching helper.) -/
def leadsWith : List Char → List Char → Bool
  | [], _ => true
  | _ :: _, [] => false
  | a :: as, b :: bs => a == b && leadsWith as bs

/-- Python `needle in hay` on strings: `needle` occurs contiguously in `hay`. -/
def hasSub : List Char → List Char → Bool
  | n, [] => leadsWith n []
  | n, c :: t => leadsWith n (c :: t) || hasSub n t

/-- The transient-blocking marker phrases of `yt_downloader.py` lines 315-319. -/
def blockingPhrases : List String :=
  ["ssap", "signature extraction", "nsig extraction",
   "fragment not found", "downloaded file is empty",
   "formats have been skipped", "missing a url"]

/-- Classifier `is_youtube_blocking` of `yt_downloader.py` lines 315-319: the lowered
error text contains one of the marker phrases. -/
def is_youtube_blocking (error_msg : String) : Bool :=
  blockingPhrases.any (fun phrase => hasSub phrase.data (pyLower error_msg).data)

/-- The character class `[\w-]` of the identifier pattern at line 282
(ASCII model of Python `\w`, plus the hyphen). -/
def isIdChar (c : Char) : Bool :=
  c.isAlphanum || c == '_' || c == '-'

/-- Match `([\w-]{11})` at the head of the input: the first 11 characters
when they are all identifier characters. -/
def grab11 (s : List Char) : Option (List Char) :=
  let t := s.take 11
  if t.length == 11 && t.all isIdChar then some t else none

/-- The optional alternation `(?:v=|be/|embed/|shorts/|list=)?` of the
pattern at line 282, tried in source order with backtracking: a textual
alternative that is not followed by 11 identifier characters falls
through to the next alternative, and finally to the empty alternative. -/
def idMarkers : List (List Char) :=
  ["v=".data, "be/".data, "embed/".data, "shorts/".data, "list=".data]

/-- Try the alternation at one start position (with the regex engine's
backtracking order), returning the captured 11-character group. -/
def tryMarkers : List (List Char) → List Char → Option (List Char)
  | [], s => grab11 s
  | m :: ms, s =>
    if leadsWith m s then
      match grab11 (s.drop m.length) with
      | some g => some g
      | none => tryMarkers ms s
    else tryMarkers ms s

/-- Model of the `re.search` semantics for the pattern at line 282: leftmost start
position at which the alternation-plus-group matches. -/
def searchId : List Char → Option (List Char)
  | [] => tryMarkers idMarkers []
  | c :: rest =>
    match tryMarkers idMarkers (c :: rest) with
    | some g => some g
    | none => searchId rest

/-- Video-identifier extraction, `yt_downloader.py` lines 281-285:
`re.search(r'(?:v=|be/|embed/|shorts/|list=)?([\w-]{11})', url)`,
returning the captured group of the first match. -/
def extract_video_id (url : String) : Option String :=
  (searchId url.data).map String.mk

/-- Python `set.add` on a list-represented set: append when absent. -/
def insertSet (s : List String) (x : String) : List String :=
  if s.contains x then s else s ++ [x]

/-- Archive load, `yt_downloader.py` lines 154-159: if an archive path is
given and the file exists, add each line's `strip()` to a fresh set;
otherwise the set is empty.  The file system is an oracle from paths to
the list of lines of an existing file. -/
def load_archive (fsOracle : String → Option (List String)) :
    Option String → List String
  | none => []
  | some path =>
    match fsOracle path with
    | none => []
    | some lines => lines.foldl (fun s line => insertSet s (pyStrip line)) []

/-! ### ToolResolver: `get_local_ffmpeg_path` and `download_ffmpeg` -/

/-- The outcome the environment has in store for a bootstrap attempt
(`download_ffmpeg` lines 117-151): the network fetch raises, the zip
extraction raises, extraction succeeds but no `ffmpeg-*essentials*`
folder is found, or everything succeeds. -/
inductive BootOutcome
  | netFail
  | extractFail
  | noFolder
  | ok
deriving DecidableEq

/-- The tool-cache portion of the file system next to the script:
whether `ffmpeg/bin/ffmpeg.exe` exists, whether the downloaded zip
exists, and what a bootstrap attempt would do. -/
structure FfState where
  exeExists : Bool
  zipExists : Bool
  boot : BootOutcome
deriving DecidableEq

/-- The path `download_ffmpeg` and `get_local_ffmpeg_path` return on
success (`str(ffmpeg_dir / "bin")`). -/
def ffmpegBinPath : String := "ffmpeg/bin"

/-- Result of one `download_ffmpeg` call: the returned path (or `none`),
the tool-cache state afterwards, and how many network downloads
(`urllib.request.urlretrieve` calls) were performed. -/
structure FfResult where
  path : Option String
  state : FfState
  downloads : Nat
deriving DecidableEq

/-- Function `get_local_ffmpeg_path`, `yt_downloader.py` lines 85-93: the cached
bin directory when `ffmpeg/bin/ffmpeg.exe` exists, else `None`. -/
def get_local_ffmpeg_path (s : FfState) : Option String :=
  if s.exeExists then some ffmpegBinPath else none

/-- Function `download_ffmpeg`, `yt_downloader.py` lines 95-151.  If the expected
executable already exists the download is skipped (lines 106-108).
Otherwise one network download is attempted; an exception during
download or extraction is caught and the partial zip removed
(lines 146-151); a successful extraction whose tree contains no
`ffmpeg-*essentials*` folder returns `None` with the zip left in place
(lines 142-144); on full success the folder is renamed, the zip removed
and the bin directory returned (lines 133-141). -/
def download_ffmpeg (s : FfState) : FfResult :=
  if s.exeExists then
    { path := some ffmpegBinPath, state := s, downloads := 0 }
  else
    match s.boot with
    | BootOutcome.netFail =>
      { path := none, state := { s with zipExists := false }, downloads := 1 }
    | BootOutcome.extractFail =>
      { path := none, state := { s with zipExists := false }, downloads := 1 }
    | BootOutcome.noFolder =>
      { path := none, state := { s with zipExists := true }, downloads := 1 }
    | BootOutcome.ok =>
      { path := some ffmpegBinPath,
        state := { s with exeExists := true, zipExists := false }, downloads := 1 }

/-! ### MetadataTagger: `tag_audio_metadata` -/

/-- The descriptor dict returned by the provider (`info` in the source);
every field is optional, as in the dynamic dict. -/
structure Info where
  id : Option String := none
  title : Option String := none
  artist : Option String := none
  uploader : Option String := none
  album : Option String := none
  playlist_title : Option String := none
  thumbnail : Option String := none
  ext : Option String := none

/-- Exceptions the underlying libraries may raise inside
`tag_audio_metadata`: from the main tag-write path (EasyID3 / save),
from the thumbnail fetch-and-embed path (requests / ID3 save), and from
the WAVE path. `none` means the corresponding operations succeed. -/
structure TagEnv where
  easyErr : Option String := none
  thumbErr : Option String := none
  wavErr : Option String := none

/-- What `tag_audio_metadata` reports: silent success, or the warning
printed by the outer `except` handler at line 53. -/
inductive TagResult
  | ok
  | warned (msg : String)

/-- Function `tag_audio_metadata`, `yt_downloader.py` lines 16-53, in an explicit
exception monad: `Except.error` would be an exception propagating to the
caller.  The mp3 path writes text frames then embeds the thumbnail in an
inner `try` whose failure is swallowed (lines 34-42); the wav path
writes text frames; the outer `try` converts any failure into a printed
warning (lines 52-53). -/
def tag_audio_metadata (filepath : String) (info : Info) (audio_format : String)
    (te : TagEnv) : Except String TagResult :=
  let body : Except String Unit :=
    if audio_format == "mp3" then
      match te.easyErr with
      | some m => Except.error m
      | none =>
        -- inner try: thumbnail fetch and cover-art embed, result discarded
        let thumbAttempt : Except String Unit :=
          match info.thumbnail with
          | some _ =>
            match te.thumbErr with
            | some m => Except.error m
            | none => Except.ok ()
          | none => Except.ok ()
        let _ := thumbAttempt
        Except.ok ()
    else if audio_format == "wav" then
      match te.wavErr with
      | some m => Except.error m
      | none => Except.ok ()
    else
      Except.ok ()
  match body with
  | Except.ok _ => Except.ok TagResult.ok
  | Except.error m =>
    Except.ok (TagResult.warned ("[WARN] Could not tag " ++ filepath ++ ": " ++ m))

/-! ### AcquisitionJob: `download_youtube_video` -/

/-- One `download_youtube_video` request: the keyword arguments of the
merged signature (lines 153 and 237). -/
structure Request where
  url : String
  audio_format : Option String := none
  ffmpeg_path : Option String := none
  auto_download_ffmpeg : Bool := true
  download_archive : Option String := none
  best_native : Bool := false
  output_template : Option String := none
  ignore_errors : Bool := false
  list_formats : Bool := false

/-- What one provider fetch (`ydl.extract_info` at line 292) does:
produce a descriptor, or raise with an error message. -/
inductive FetchOutcome
  | ok (info : Info)
  | err (msg : String)

/-- The environment of one `download_youtube_video` run: the file system
(paths of existing files to their lines), the result of
`check_ffmpeg(ffmpeg_path)`, the tool-cache state, the reply typed at
the ffmpeg download prompt (line 184), the provider's behavior on each
attempt (1-indexed), whether the computed output file exists after a
successful fetch (line 304), its name, and the tag-library oracles. -/
structure Env where
  fs : String → Option (List String)
  check_ffmpeg : Bool
  ff : FfState
  ffmpegPromptResponse : String
  fetch : Nat → FetchOutcome
  outputFileExists : Bool
  outputFilename : String
  tagEnv : TagEnv

/-- Observable outcome of one `download_youtube_video` run: the returned
bool, how many times the provider was invoked, the waits slept between
retry attempts (line 325), whether a media file was downloaded, the
identifiers appended to the archive (lines 307-309), whether the run
ended in the archive-skip branch (lines 287-289), and the tagging
warning if one was printed. -/
structure DLTrace where
  success : Bool
  providerCalls : Nat
  waits : List Nat
  fileProduced : Bool
  archiveAppends : List String
  skipped : Bool
  tagWarn : Option String

/-- The formats that require the Transcoder (the condition documented at
line 170 for the gate at lines 173-205). -/
def requiresTranscoder (audio_format : Option String) : Bool :=
  audio_format == some "wav" || audio_format == some "mp3"

/-- The FFmpeg gate of lines 173-205: when a Transcoder-backed format is
requested, accept a PATH/explicit ffmpeg, else the local cache, else
(with auto-provisioning and a `y` reply) a successful bootstrap;
otherwise the function returns `False` before any provider work. -/
def ffmpegGate (r : Request) (env : Env) : Bool :=
  if requiresTranscoder r.audio_format then
    if env.check_ffmpeg then true
    else
      match get_local_ffmpeg_path env.ff with
      | some _ => true
      | none =>
        if r.auto_download_ffmpeg then
          if pyLower (pyStrip env.ffmpegPromptResponse) == "y" then
            (download_ffmpeg env.ff).path.isSome
          else false
        else false
  else true

/-- The archive pre-check at the top of each retry iteration
(lines 279-289): an archive is configured, the URL yields an identifier,
and that identifier is in the loaded set. -/
def skipCheck (r : Request) (ids : List String) : Bool :=
  r.download_archive.isSome &&
    (match extract_video_id r.url with
     | some vid => ids.contains vid
     | none => false)

/-- Constant `max_retries` at line 275. -/
def max_retries : Nat := 3

/-- The retry loop of lines 276-353, as structural recursion on the
remaining iterations (`fuel`), carrying the 1-based attempt index, the
provider-call count and the waits performed so far.  Each iteration
re-runs the archive pre-check, then fetches; a transient failure with
attempts remaining waits `attempt * 2` and retries; any other failure
(transient at the cap, or non-transient) returns `False` at once; loop
exhaustion falls through to the `return False` at line 353. -/
def runAttempts (r : Request) (env : Env) (ids : List String) :
    Nat → Nat → Nat → List Nat → DLTrace
  | 0, _, calls, waits =>
    { success := false, providerCalls := calls, waits := waits,
      fileProduced := false, archiveAppends := [], skipped := false, tagWarn := none }
  | fuel + 1, attempt, calls, waits =>
    if skipCheck r ids then
      { success := true, providerCalls := calls, waits := waits,
        fileProduced := false, archiveAppends := [], skipped := true, tagWarn := none }
    else
      match env.fetch attempt with
      | FetchOutcome.ok info =>
        let tagWarn : Option String :=
          if requiresTranscoder r.audio_format && env.outputFileExists then
            match tag_audio_metadata env.outputFilename info
                (r.audio_format.getD "") env.tagEnv with
            | Except.ok TagResult.ok => none
            | Except.ok (TagResult.warned m) => some m
            | Except.error m => some m
          else none
        let appends : List String :=
          if r.download_archive.isSome then
            match info.id with
            | some i => [i]
            | none => []
          else []
        { success := true, providerCalls := calls + 1, waits := waits,
          fileProduced := true, archiveAppends := appends, skipped := false,
          tagWarn := tagWarn }
      | FetchOutcome.err m =>
        if is_youtube_blocking m && attempt < max_retries then
          runAttempts r env ids fuel (attempt + 1) (calls + 1) (waits ++ [attempt * 2])
        else
          { success := false, providerCalls := calls + 1, waits := waits,
            fileProduced := false, archiveAppends := [], skipped := false, tagWarn := none }

/-- Function `download_youtube_video`, merged control flow of lines 153-353:
load the archive set (154-159), run the transcoder gate (173-205), honor
`list_formats` by a single provider invocation that downloads nothing
(238-244), then enter the retry loop (274-353). -/
def download_youtube_video (r : Request) (env : Env) : DLTrace :=
  let ids := load_archive env.fs r.download_archive
  if ffmpegGate r env then
    if r.list_formats then
      { success := true, providerCalls := 1, waits := [],
        fileProduced := false, archiveAppends := [], skipped := false, tagWarn := none }
    else
      runAttempts r env ids max_retries 1 0 []
  else
    { success := false, providerCalls := 0, waits := [],
      fileProduced := false, archiveAppends := [], skipped := false, tagWarn := none }

/-- The observables the success-related claims talk about: returned
bool, provider invocations, waits, and whether a file was produced. -/
def obs (t : DLTrace) : Bool × Nat × List Nat × Bool :=
  (t.success, t.providerCalls, t.waits, t.fileProduced)

/-! ### BatchRunner: `batch_convert` and the exit code of `main`
(`audio_to_midi.py`) -/

/-- Function `batch_convert`, `audio_to_midi.py` lines 146-167: iterate over the
input paths in order, counting successes and failures of
`convert_audio_to_midi` (abstracted as the per-item oracle
`convertResult`). -/
def batch_convert (convertResult : String → Bool) (input_paths : List String) :
    Nat × Nat :=
  input_paths.foldl
    (fun acc a => if convertResult a then (acc.1 + 1, acc.2) else (acc.1, acc.2 + 1))
    (0, 0)

/-- The exit code computed by `main`, `audio_to_midi.py` line 293:
`sys.exit(0 if failed == 0 else 1)`. -/
def mainExitCode (convertResult : String → Bool) (input_paths : List String) : Nat :=
  if (batch_convert convertResult input_paths).2 == 0 then 0 else 1

/-! ### `convert_local_file_to_wav` -/

/-- Python `pathlib.PurePath.stem`: the final component without its last
suffix, where a suffix needs a dot at an index strictly between 0 and
`len - 1`. -/
def pyStem (name : String) : String :=
  let cs := name.data
  match (cs.reverse.findIdx? (fun c => c == '.')) with
  | none => name
  | some revIdx =>
    let i := cs.length - 1 - revIdx
    if 0 < i && i < cs.length - 1 then String.mk (cs.take i) else name

/-- Environment of one `convert_local_file_to_wav` run: file-system
predicates, `shutil.which("ffmpeg")`, the tool-cache state, the replies
typed at the ffmpeg-download prompt (line 402) and at the overwrite
prompt (line 433), and whether the ffmpeg subprocess succeeds. -/
structure ConvEnv where
  fileExists : String → Bool
  isFile : String → Bool
  isDir : String → Bool
  whichFfmpeg : Option String
  ff : FfState
  promptDownload : String
  promptOverwrite : String
  transcodeOk : Bool

/-- Observables of one `convert_local_file_to_wav` run: the returned
bool, how many times the ffmpeg subprocess ran, whether the overwrite
prompt was shown, and the computed output path once it was computed. -/
structure ConvTrace where
  success : Bool
  transcoderRuns : Nat
  promptedOverwrite : Bool
  outputFile : Option String

/-- The ffmpeg-command resolution of `convert_local_file_to_wav`,
lines 380-419: explicit path (file, or directory containing
`ffmpeg.exe`), then PATH, then the local cache, then (with
auto-provisioning and a `y` reply) a bootstrap; `none` means the
function returns `False` at this stage. -/
def resolve_ffmpeg_cmd (ffmpeg_path : Option String) (auto_download_ffmpeg : Bool)
    (env : ConvEnv) : Option String :=
  let c1 : Option String :=
    match ffmpeg_path with
    | some p =>
      if env.isFile p then some p
      else if env.isDir p && env.isFile (p ++ "/ffmpeg.exe") then
        some (p ++ "/ffmpeg.exe")
      else none
    | none => none
  let c2 : Option String :=
    match c1 with
    | some c => some c
    | none => env.whichFfmpeg
  match c2 with
  | some c => some c
  | none =>
    match get_local_ffmpeg_path env.ff with
    | some loc => some (loc ++ "/ffmpeg.exe")
    | none =>
      if auto_download_ffmpeg then
        if pyLower (pyStrip env.promptDownload) == "y" then
          match (download_ffmpeg env.ff).path with
          | some p => some (p ++ "/ffmpeg.exe")
          | none => none
        else none
      else none

/-- Function `convert_local_file_to_wav`, `yt_downloader.py` lines 355-469.  The
input file is given as a directory and a base name (its path is their
join).  After input validation and ffmpeg resolution, the output path is
`output_dir / (stem + ".wav")` (line 429); if that file exists the user
is prompted and any normalized reply other than `y` cancels
(lines 432-436); otherwise ffmpeg runs once and the returned bool is its
success. -/
def convert_local_file_to_wav (inputDir inputName : String)
    (output_path ffmpeg_path : Option String) (auto_download_ffmpeg : Bool)
    (env : ConvEnv) : ConvTrace :=
  let inputPath := inputDir ++ "/" ++ inputName
  if !(env.fileExists inputPath) then
    { success := false, transcoderRuns := 0, promptedOverwrite := false, outputFile := none }
  else if !(env.isFile inputPath) then
    { success := false, transcoderRuns := 0, promptedOverwrite := false, outputFile := none }
  else
    match resolve_ffmpeg_cmd ffmpeg_path auto_download_ffmpeg env with
    | none =>
      { success := false, transcoderRuns := 0, promptedOverwrite := false, outputFile := none }
    | some _ =>
      let outputDir :=
        match output_path with
        | some d => d
        | none => inputDir
      let outputFile := outputDir ++ "/" ++ pyStem inputName ++ ".wav"
      if env.fileExists outputFile then
        if pyLower (pyStrip env.promptOverwrite) == "y" then
          { success := env.transcodeOk, transcoderRuns := 1,
            promptedOverwrite := true, outputFile := some outputFile }
        else
          { success := false, transcoderRuns := 0,
            promptedOverwrite := true, outputFile := some outputFile }
      else
        { success := env.transcodeOk, transcoderRuns := 1,
          promptedOverwrite := false, outputFile := some outputFile }

/-- C6 counterexample input: the tool cache is empty and the downloaded
archive extracts to a tree with no `ffmpeg-*essentials*` folder. -/
def ffC6 : FfState :=
  { exeExists := false, zipExists := false, boot := BootOutcome.noFolder }

/-- C7 counterexample input: an archive file whose single line is
whitespace-only. -/
def fsC7 : String → Option (List String) :=
  fun p => if p == "seen.txt" then some ["   "] else none

/-- C9 witness request: a URL with no 11-character identifier token. -/
def reqC9 : Request :=
  { url := "u.rl/a", download_archive := some "seen.txt" }

/-- C9 witness environment. -/
def envC9 : Env :=
  { fs := fun _ => none
    check_ffmpeg := true
    ff := { exeExists := false, zipExists := false, boot := BootOutcome.netFail }
    ffmpegPromptResponse := "n"
    fetch := fun _ => FetchOutcome.ok {}
    outputFileExists := false
    outputFilename := "f"
    tagEnv := {} }

/-- C1 counterexample request: archive carries the identifier, but the
requested format needs the transcoder and auto-provisioning is off. -/
def reqC1 : Request :=
  { url := "https://www.youtube.com/watch?v=dQw4w9WgXcQ"
    audio_format := some "wav"
    auto_download_ffmpeg := false
    download_archive := some "seen.txt" }

/-- C1 counterexample environment: the identifier is in the archive, but
no transcoder is available anywhere. -/
def envC1 : Env :=
  { fs := fun pa => if pa == "seen.txt" then some ["dQw4w9WgXcQ"] else none
    check_ffmpeg := false
    ff := { exeExists := false, zipExists := false, boot := BootOutcome.netFail }
    ffmpegPromptResponse := "n"
    fetch := fun _ => FetchOutcome.err "x"
    outputFileExists := false
    outputFilename := "f"
    tagEnv := {} }

/-- C1 counterexample second input: the same archived URL with
`list_formats` set and no transcoder-backed format. -/
def reqC1list : Request :=
  { url := "https://www.youtube.com/watch?v=dQw4w9WgXcQ"
    download_archive := some "seen.txt"
    list_formats := true }

/-- C1 witness request: a native-format request with an archived URL. -/
def reqC1w : Request :=
  { url := "https://www.youtube.com/watch?v=dQw4w9WgXcQ"
    download_archive := some "seen.txt" }

/-- C2 witness environment: every provider attempt fails with a
transient-blocking error. -/
def envC2 : Env :=
  { fs := fun _ => none
    check_ffmpeg := true
    ff := { exeExists := false, zipExists := false, boot := BootOutcome.netFail }
    ffmpegPromptResponse := "n"
    fetch := fun _ => FetchOutcome.err "HTTP Error: nsig extraction failed"
    outputFileExists := false
    outputFilename := "f"
    tagEnv := {} }

/-- C3 witness environment: a permanent (unclassified) provider error. -/
def envC3 : Env :=
  { fs := fun _ => none
    check_ffmpeg := true
    ff := { exeExists := false, zipExists := false, boot := BootOutcome.netFail }
    ffmpegPromptResponse := "n"
    fetch := fun _ => FetchOutcome.err "Video unavailable"
    outputFileExists := false
    outputFilename := "f"
    tagEnv := {} }

/-- C5 witness request: an mp3 request with auto-provisioning off. -/
def reqC5 : Request :=
  { url := "https://www.youtube.com/watch?v=dQw4w9WgXcQ"
    audio_format := some "mp3"
    auto_download_ffmpeg := false }

/-- C10 counterexample environment: the computed output file exists, the
transcoder is on PATH, and the overwrite reply is an uppercase `Y`. -/
def envC10 : ConvEnv :=
  { fileExists := fun _ => true
    isFile := fun _ => true
    isDir := fun _ => false
    whichFfmpeg := some "/usr/bin/ffmpeg"
    ff := { exeExists := false, zipExists := false, boot := BootOutcome.netFail }
    promptDownload := "n"
    promptOverwrite := "Y"
    transcodeOk := true }

/-- C10 witness environment: existing output, transcoder on PATH, and a
declining reply. -/
def envC10w : ConvEnv :=
  { envC10 with promptOverwrite := " no " }

/-! ### Helper lemmas -/

/-- Membership after a `set.add` step. -/
lemma mem_insertSet (s : List String) (a x : String) :
    x ∈ insertSet s a ↔ x ∈ s ∨ x = a := by
  simp only [insertSet]
  split
  · next h =>
    have ha : a ∈ s := by simpa using h
    constructor
    · exact Or.inl
    · rintro (hx | rfl)
      · exact hx
      · exact ha
  · simp [List.mem_append]

/-- Membership in the fold that loads the archive set. -/
lemma mem_load_fold (lines : List String) (acc : List String) (x : String) :
    x ∈ lines.foldl (fun s line => insertSet s (pyStrip line)) acc ↔
      x ∈ acc ∨ ∃ l ∈ lines, pyStrip l = x := by
  induction lines generalizing acc with
  | nil => simp
  | cons l ls ih =>
    simp only [List.foldl_cons, ih, mem_insertSet, List.mem_cons]
    constructor
    · rintro ((hx | rfl) | ⟨w, hw, hwx⟩)
      · exact Or.inl hx
      · exact Or.inr ⟨l, Or.inl rfl, rfl⟩
      · exact Or.inr ⟨w, Or.inr hw, hwx⟩
    · rintro (hx | ⟨w, (rfl | hw), hwx⟩)
      · exact Or.inl (Or.inl hx)
      · exact Or.inl (Or.inr hwx.symm)
      · exact Or.inr ⟨w, hw, hwx⟩

/-- Splitting a list's length by a predicate. -/
lemma length_filter_split (p : String → Bool) (l : List String) :
    (l.filter p).length + (l.filter (fun a => !(p a))).length = l.length := by
  induction l with
  | nil => rfl
  | cons a as ih =>
    by_cases h : p a <;> simp [List.filter_cons, h] <;> omega

/-- Closed form of the `batch_convert` fold. -/
lemma batch_convert_foldl (conv : String → Bool) (l : List String) (acc : Nat × Nat) :
    l.foldl (fun acc a => if conv a then (acc.1 + 1, acc.2) else (acc.1, acc.2 + 1)) acc =
      (acc.1 + (l.filter (fun a => conv a)).length,
       acc.2 + (l.filter (fun a => !(conv a))).length) := by
  induction l generalizing acc with
  | nil => simp
  | cons a as ih =>
    by_cases h : conv a <;> simp [List.filter_cons, h, ih] <;> omega

/-! ### Claims -/

/-- C6, counterexample: calling the resolver's bootstrap twice is NOT
always at most one network download — when the first bootstrap fails to
find the extracted folder, the executable is still absent and the second
call downloads again, so two calls perform two downloads. -/
theorem claim_C6_counterexample :
    (download_ffmpeg ffC6).downloads +
        (download_ffmpeg (download_ffmpeg ffC6).state).downloads = 2 ∧
      ¬ ((download_ffmpeg ffC6).downloads +
          (download_ffmpeg (download_ffmpeg ffC6).state).downloads ≤ 1) := by
  decide

/-- C6, amended: if the expected executable already exists the download
is skipped entirely; whenever a call resolves successfully, that call
plus a subsequent call perform at most one download in total (the second
call finds the cached executable); and on a caught bootstrap failure
(network or extraction exception) the partial archive file is removed
before returning `None`. -/
theorem claim_C6_amended :
    (∀ s : FfState, s.exeExists = true →
        download_ffmpeg s = { path := some ffmpegBinPath, state := s, downloads := 0 })
  ∧ (∀ s : FfState, (download_ffmpeg s).path.isSome = true →
        (download_ffmpeg s).downloads +
          (download_ffmpeg (download_ffmpeg s).state).downloads ≤ 1)
  ∧ (∀ s : FfState, s.exeExists = false →
        (s.boot = BootOutcome.netFail ∨ s.boot = BootOutcome.extractFail) →
        (download_ffmpeg s).path = none ∧ (download_ffmpeg s).state.zipExists = false) := by
  refine ⟨?_, ?_, ?_⟩
  · rintro ⟨exe, zip, boot⟩ h
    cases h
    rfl
  · rintro ⟨exe, zip, boot⟩ h
    cases exe <;> cases boot <;> simp_all [download_ffmpeg]
  · rintro ⟨exe, zip, boot⟩ h hb
    cases h
    rcases hb with h | h <;> cases h <;> simp [download_ffmpeg]

/-- C6 witness: a run from a state with the executable cached, and a
successful bootstrap followed by a second call, both perform at most one
download. -/
theorem claim_C6_witness :
    download_ffmpeg { exeExists := true, zipExists := false, boot := BootOutcome.ok } =
        { path := some ffmpegBinPath,
          state := { exeExists := true, zipExists := false, boot := BootOutcome.ok },
          downloads := 0 }
  ∧ (download_ffmpeg { exeExists := false, zipExists := false, boot := BootOutcome.ok }).downloads +
      (download_ffmpeg (download_ffmpeg
        { exeExists := false, zipExists := false, boot := BootOutcome.ok }).state).downloads ≤ 1 :=
  ⟨claim_C6_amended.1 _ rfl, claim_C6_amended.2.1 _ (by decide)⟩

/-- C7, counterexample: a whitespace-only line is NOT ignored — it
contributes the empty string as a member of the loaded set, which is
therefore nonempty. -/
theorem claim_C7_counterexample :
    "" ∈ load_archive fsC7 (some "seen.txt") ∧
      load_archive fsC7 (some "seen.txt") ≠ [] := by
  decide

/-- C7, amended: archive load reads one identifier per line with
surrounding whitespace trimmed; blank and whitespace-only lines
contribute the empty string to the set (harmless, as it never equals an
extracted identifier); a missing archive file or absent path yields the
empty set rather than an error. -/
theorem claim_C7_amended (fsOracle : String → Option (List String)) (p : String) :
    load_archive fsOracle none = []
  ∧ (fsOracle p = none → load_archive fsOracle (some p) = [])
  ∧ (∀ lines, fsOracle p = some lines →
      ∀ x, x ∈ load_archive fsOracle (some p) ↔ ∃ l ∈ lines, pyStrip l = x) := by
  refine ⟨rfl, ?_, ?_⟩
  · intro h
    simp [load_archive, h]
  · intro lines h x
    simp [load_archive, h, mem_load_fold]

/-- C7 witness: loading a concrete archive with padding, a blank line
and a plain identifier. -/
theorem claim_C7_witness :
    load_archive (fun _ => none) none = []
  ∧ load_archive (fun _ => none) (some "seen.txt") = []
  ∧ ("id2" ∈ load_archive
        (fun p => if p == "seen.txt" then some [" id1 ", "", "id2"] else none)
        (some "seen.txt") ↔
      ∃ l ∈ [" id1 ", "", "id2"], pyStrip l = "id2") :=
  ⟨(claim_C7_amended (fun _ => none) "seen.txt").1,
   (claim_C7_amended (fun _ => none) "seen.txt").2.1 rfl,
   (claim_C7_amended
      (fun p => if p == "seen.txt" then some [" id1 ", "", "id2"] else none)
      "seen.txt").2.2 [" id1 ", "", "id2"] rfl "id2"⟩

/-- C8, confirmed: the batch runner processes every item (the success
and failure counts always sum to the number of inputs, and the success
count is exactly the number of items whose conversion succeeded — no
failure aborts the fold), and the process exit code is 0 iff every item
succeeded. -/
theorem claim_C8_batch (convertResult : String → Bool) (input_paths : List String) :
    (batch_convert convertResult input_paths).1 +
        (batch_convert convertResult input_paths).2 = input_paths.length
  ∧ (batch_convert convertResult input_paths).1 =
        (input_paths.filter (fun a => convertResult a)).length
  ∧ (mainExitCode convertResult input_paths = 0 ↔
        ∀ a ∈ input_paths, convertResult a = true) := by
  have hsplit := length_filter_split convertResult input_paths
  have hb : batch_convert convertResult input_paths =
      ((input_paths.filter (fun a => convertResult a)).length,
       (input_paths.filter (fun a => !(convertResult a))).length) := by
    unfold batch_convert
    rw [batch_convert_foldl]
    simp
  refine ⟨?_, ?_, ?_⟩
  · rw [hb]
    exact hsplit
  · rw [hb]
  · have hiff : (mainExitCode convertResult input_paths = 0) ↔
        (input_paths.filter (fun a => !(convertResult a))).length = 0 := by
      unfold mainExitCode
      rw [hb]
      by_cases h0 : (input_paths.filter (fun a => !(convertResult a))).length = 0 <;>
        simp [h0]
    rw [hiff]
    constructor
    · intro h0 a ha
      by_contra hc
      have hmem : a ∈ input_paths.filter (fun a => !(convertResult a)) :=
        List.mem_filter.mpr ⟨ha, by simp [hc]⟩
      have hpos := List.length_pos_of_mem hmem
      omega
    · intro h
      have hnil : input_paths.filter (fun a => !(convertResult a)) = [] :=
        List.filter_eq_nil_iff.mpr (fun a ha => by simp [h a ha])
      simp [hnil]

/-- The retry loop's observables do not depend on the tag-library
oracles: only the recorded warning can. -/
lemma runAttempts_obs_tagEnv (r : Request) (env : Env) (te : TagEnv) (ids : List String) :
    ∀ fuel attempt calls waits,
      obs (runAttempts r { env with tagEnv := te } ids fuel attempt calls waits) =
        obs (runAttempts r env ids fuel attempt calls waits) := by
  intro fuel
  induction fuel with
  | zero => intro attempt calls waits; rfl
  | succ n ih =>
    intro attempt calls waits
    simp only [runAttempts]
    by_cases hsk : skipCheck r ids = true
    · simp [hsk]
    · simp only [hsk, Bool.false_eq_true, if_false]
      have hfe : ({ env with tagEnv := te } : Env).fetch = env.fetch := rfl
      rw [hfe]
      cases hf : env.fetch attempt with
      | ok info => rfl
      | err m =>
        dsimp only
        split
        · exact ih (attempt + 1) (calls + 1) (waits ++ [attempt * 2])
        · rfl

/-- With no extractable identifier, the loop's observables are the same
with or without a configured archive, whatever set was loaded. -/
lemma runAttempts_obs_archive (r : Request) (env : Env) (ids ids2 : List String)
    (hid : extract_video_id r.url = none) :
    ∀ fuel attempt calls waits,
      obs (runAttempts { r with download_archive := none } env ids2 fuel attempt calls waits) =
        obs (runAttempts r env ids fuel attempt calls waits) := by
  have h1 : skipCheck r ids = false := by
    simp [skipCheck, hid]
  have h2 : skipCheck { r with download_archive := none } ids2 = false := by
    simp [skipCheck]
  intro fuel
  induction fuel with
  | zero => intro attempt calls waits; rfl
  | succ n ih =>
    intro attempt calls waits
    simp only [runAttempts, h1, h2, Bool.false_eq_true, if_false]
    cases hf : env.fetch attempt with
    | ok info => rfl
    | err m =>
      dsimp only
      split
      · exact ih (attempt + 1) (calls + 1) (waits ++ [attempt * 2])
      · rfl

/-- Observables of a whole run do not depend on the tag oracles. -/
lemma download_obs_tagEnv (r : Request) (env : Env) (te : TagEnv) :
    obs (download_youtube_video r { env with tagEnv := te }) =
      obs (download_youtube_video r env) := by
  unfold download_youtube_video
  have hg : ffmpegGate r { env with tagEnv := te } = ffmpegGate r env := rfl
  have hfs : ({ env with tagEnv := te } : Env).fs = env.fs := rfl
  rw [hg, hfs]
  by_cases h : ffmpegGate r env = true
  · simp only [h, if_true]
    by_cases hl : r.list_formats = true
    · simp [hl]
    · simp only [hl, Bool.false_eq_true, if_false]
      exact runAttempts_obs_tagEnv r env te _ max_retries 1 0 []
  · simp [h]

/-- Observables of a whole run with no extractable identifier are the
same with or without a configured archive. -/
lemma download_obs_archive (r : Request) (env : Env)
    (hid : extract_video_id r.url = none) :
    obs (download_youtube_video { r with download_archive := none } env) =
      obs (download_youtube_video r env) := by
  unfold download_youtube_video
  have hg : ffmpegGate { r with download_archive := none } env = ffmpegGate r env := rfl
  have hlf : ({ r with download_archive := none } : Request).list_formats = r.list_formats := rfl
  rw [hg, hlf]
  by_cases h : ffmpegGate r env = true
  · simp only [h, if_true]
    by_cases hl : r.list_formats = true
    · simp [hl]
    · simp only [hl, Bool.false_eq_true, if_false]
      exact runAttempts_obs_archive r env _ _ hid max_retries 1 0 []
  · simp [h]

/-- C4, confirmed: the metadata tagger never raises to its caller (its
result is always `Except.ok`, whatever the library oracles do), and the
observable outcome of a run — success flag, provider calls, waits, file
produced — is independent of the tag oracles, so a tagging failure never
flips a successful conversion's outcome. -/
theorem claim_C4_tagging :
    (∀ (filepath : String) (info : Info) (audio_format : String) (te : TagEnv),
        (tag_audio_metadata filepath info audio_format te).isOk = true)
  ∧ (∀ (r : Request) (env : Env) (te : TagEnv),
        obs (download_youtube_video r { env with tagEnv := te }) =
          obs (download_youtube_video r env)) := by
  constructor
  · intro filepath info audio_format te
    rcases te with ⟨easyErr, thumbErr, wavErr⟩
    by_cases h1 : (audio_format == "mp3") = true
    · cases easyErr <;> simp [tag_audio_metadata, h1, Except.isOk, Except.toBool]
    · by_cases h2 : (audio_format == "wav") = true
      · cases wavErr <;> simp [tag_audio_metadata, h1, h2, Except.isOk, Except.toBool]
      · simp [tag_audio_metadata, h1, h2, Except.isOk, Except.toBool]
  · intro r env te
    exact download_obs_tagEnv r env te

/-- C9, confirmed: identifier extraction matches the 11-character token
on the provider's common URL shapes (watch page, short link, embed,
playlist item), and when no identifier is extractable the archive
pre-check is simply skipped: the run's observables are exactly those of
the same run without an archive, so extraction never fails the job. -/
theorem claim_C9_extract :
    extract_video_id "https://www.youtube.com/watch?v=dQw4w9WgXcQ" = some "dQw4w9WgXcQ"
  ∧ extract_video_id "https://youtu.be/dQw4w9WgXcQ" = some "dQw4w9WgXcQ"
  ∧ extract_video_id "https://www.youtube.com/embed/dQw4w9WgXcQ" = some "dQw4w9WgXcQ"
  ∧ extract_video_id "https://www.youtube.com/watch?v=dQw4w9WgXcQ&list=PLAAAAAAAAAAA"
      = some "dQw4w9WgXcQ"
  ∧ (∀ (r : Request) (env : Env), extract_video_id r.url = none →
      obs (download_youtube_video { r with download_archive := none } env) =
        obs (download_youtube_video r env)) := by
  refine ⟨by decide, by decide, by decide, by decide, ?_⟩
  intro r env hid
  exact download_obs_archive r env hid

/-- C9 witness: on a URL of unrecognized shape, a run with an archive
configured has the same observables as without. -/
theorem claim_C9_witness :
    obs (download_youtube_video { reqC9 with download_archive := none } envC9) =
      obs (download_youtube_video reqC9 envC9) :=
  claim_C9_extract.2.2.2.2 reqC9 envC9 (by decide)

/-- Under a passing transcoder gate and no list-formats request, a run
is exactly the retry loop on the loaded archive set. -/
lemma download_eq_runAttempts (r : Request) (env : Env)
    (hg : ffmpegGate r env = true) (hlf : r.list_formats = false) :
    download_youtube_video r env =
      runAttempts r env (load_archive env.fs r.download_archive) max_retries 1 0 [] := by
  unfold download_youtube_video
  simp [hg, hlf]

/-- C1, counterexample: a Request whose archive already contains the
URL's stable identifier does NOT always return a successful Outcome with
zero provider invocations.  First input: a wav request with no
resolvable transcoder and auto-provisioning disabled fails (success is
false) despite the archived identifier.  Second input: with
`list_formats` set, the run returns success after one provider
invocation, not zero. -/
theorem claim_C1_counterexample :
    ((load_archive envC1.fs reqC1.download_archive).contains "dQw4w9WgXcQ" = true
      ∧ extract_video_id reqC1.url = some "dQw4w9WgXcQ"
      ∧ (download_youtube_video reqC1 envC1).success = false)
  ∧ (download_youtube_video reqC1list envC1).providerCalls = 1 := by
  decide

/-- C1, amended: provided the transcoder gate passes (the format needs
no transcoder, or one resolves) and list-formats mode is not requested,
a Request whose archive contains the URL's extracted identifier returns
success with zero provider invocations and no file produced (the
archive-skip branch). -/
theorem claim_C1_amended (r : Request) (env : Env) (p vid : String)
    (ha : r.download_archive = some p)
    (hv : extract_video_id r.url = some vid)
    (hin : vid ∈ load_archive env.fs (some p))
    (hg : ffmpegGate r env = true)
    (hlf : r.list_formats = false) :
    (download_youtube_video r env).success = true
  ∧ (download_youtube_video r env).providerCalls = 0
  ∧ (download_youtube_video r env).fileProduced = false
  ∧ (download_youtube_video r env).skipped = true := by
  have hsk : skipCheck r (load_archive env.fs r.download_archive) = true := by
    simp [skipCheck, ha, hv, hin]
  rw [download_eq_runAttempts r env hg hlf]
  simp [runAttempts, hsk, max_retries]

/-- C1 witness: the amended claim at a concrete archived request. -/
theorem claim_C1_witness :
    (download_youtube_video reqC1w envC1).success = true
  ∧ (download_youtube_video reqC1w envC1).providerCalls = 0
  ∧ (download_youtube_video reqC1w envC1).fileProduced = false
  ∧ (download_youtube_video reqC1w envC1).skipped = true :=
  claim_C1_amended reqC1w envC1 "seen.txt" "dQw4w9WgXcQ" rfl (by decide) (by decide)
    (by decide) rfl

/-- C2, confirmed: when the retry loop is reached, with all-transient
failures the provider is invoked exactly 3 times with waits 2 then 4 and
the run then fails terminally; with success at attempt k ∈ {1,2,3} after
transient failures, the provider is invoked exactly k times with the
corresponding prefix of waits. -/
theorem claim_C2_retry (r : Request) (env : Env)
    (hg : ffmpegGate r env = true) (hlf : r.list_formats = false)
    (hsk : skipCheck r (load_archive env.fs r.download_archive) = false) :
    (∀ m1 m2 m3 : String,
        env.fetch 1 = FetchOutcome.err m1 → is_youtube_blocking m1 = true →
        env.fetch 2 = FetchOutcome.err m2 → is_youtube_blocking m2 = true →
        env.fetch 3 = FetchOutcome.err m3 → is_youtube_blocking m3 = true →
        obs (download_youtube_video r env) = (false, 3, [2, 4], false))
  ∧ (∀ info, env.fetch 1 = FetchOutcome.ok info →
        ((download_youtube_video r env).providerCalls = 1
          ∧ (download_youtube_video r env).success = true
          ∧ (download_youtube_video r env).waits = []))
  ∧ (∀ (m1 : String) (info : Info),
        env.fetch 1 = FetchOutcome.err m1 → is_youtube_blocking m1 = true →
        env.fetch 2 = FetchOutcome.ok info →
        ((download_youtube_video r env).providerCalls = 2
          ∧ (download_youtube_video r env).success = true
          ∧ (download_youtube_video r env).waits = [2]))
  ∧ (∀ (m1 m2 : String) (info : Info),
        env.fetch 1 = FetchOutcome.err m1 → is_youtube_blocking m1 = true →
        env.fetch 2 = FetchOutcome.err m2 → is_youtube_blocking m2 = true →
        env.fetch 3 = FetchOutcome.ok info →
        ((download_youtube_video r env).providerCalls = 3
          ∧ (download_youtube_video r env).success = true
          ∧ (download_youtube_video r env).waits = [2, 4])) := by
  have hd := download_eq_runAttempts r env hg hlf
  refine ⟨?_, ?_, ?_, ?_⟩
  · intro m1 m2 m3 h1 hb1 h2 hb2 h3 hb3
    rw [hd]
    simp [runAttempts, hsk, h1, hb1, h2, hb2, h3, hb3, max_retries, obs]
  · intro info h1
    rw [hd]
    simp [runAttempts, hsk, h1, max_retries]
  · intro m1 info h1 hb1 h2
    rw [hd]
    simp [runAttempts, hsk, h1, hb1, h2, max_retries]
  · intro m1 m2 info h1 hb1 h2 hb2 h3
    rw [hd]
    simp [runAttempts, hsk, h1, hb1, h2, hb2, h3, max_retries]

/-- C2 witness: three transient failures on a concrete request give
exactly 3 provider calls, waits 2 and 4, and terminal failure. -/
theorem claim_C2_witness :
    obs (download_youtube_video { url := "u" } envC2) = (false, 3, [2, 4], false) :=
  (claim_C2_retry { url := "u" } envC2 (by decide) rfl (by decide)).1
    "HTTP Error: nsig extraction failed" "HTTP Error: nsig extraction failed"
    "HTTP Error: nsig extraction failed" rfl (by decide) rfl (by decide) rfl (by decide)

/-- C3, confirmed: a failure is classified transient exactly when its
lowered error text contains one of the fixed marker phrases; a
non-transient failure at attempt 1 (or at attempt 2 after one transient
failure) ends the job immediately with no further provider invocation
and no wait for the failing attempt. -/
theorem claim_C3_classify :
    (∀ m : String, is_youtube_blocking m = true ↔
        ∃ phrase ∈ blockingPhrases, hasSub phrase.data (pyLower m).data = true)
  ∧ (∀ (r : Request) (env : Env) (m : String),
        ffmpegGate r env = true → r.list_formats = false →
        skipCheck r (load_archive env.fs r.download_archive) = false →
        env.fetch 1 = FetchOutcome.err m → is_youtube_blocking m = false →
        ((download_youtube_video r env).success = false
          ∧ (download_youtube_video r env).providerCalls = 1
          ∧ (download_youtube_video r env).waits = []))
  ∧ (∀ (r : Request) (env : Env) (m1 m2 : String),
        ffmpegGate r env = true → r.list_formats = false →
        skipCheck r (load_archive env.fs r.download_archive) = false →
        env.fetch 1 = FetchOutcome.err m1 → is_youtube_blocking m1 = true →
        env.fetch 2 = FetchOutcome.err m2 → is_youtube_blocking m2 = false →
        ((download_youtube_video r env).success = false
          ∧ (download_youtube_video r env).providerCalls = 2
          ∧ (download_youtube_video r env).waits = [2])) := by
  refine ⟨?_, ?_, ?_⟩
  · intro m
    simp [is_youtube_blocking, List.any_eq_true]
  · intro r env m hg hlf hsk h1 hb
    rw [download_eq_runAttempts r env hg hlf]
    simp [runAttempts, hsk, h1, hb, max_retries]
  · intro r env m1 m2 hg hlf hsk h1 hb1 h2 hb2
    rw [download_eq_runAttempts r env hg hlf]
    simp [runAttempts, hsk, h1, hb1, h2, hb2, max_retries]

/-- C3 witness: `ssap` is classified transient, a plain message is not,
and a concrete non-transient failure ends the run after one call. -/
theorem claim_C3_witness :
    (is_youtube_blocking "SSAP experiment" = true ↔
      ∃ phrase ∈ blockingPhrases, hasSub phrase.data (pyLower "SSAP experiment").data = true)
  ∧ ((download_youtube_video { url := "u" } envC3).success = false
      ∧ (download_youtube_video { url := "u" } envC3).providerCalls = 1
      ∧ (download_youtube_video { url := "u" } envC3).waits = []) :=
  ⟨claim_C3_classify.1 "SSAP experiment",
   claim_C3_classify.2.1 { url := "u" } envC3 "Video unavailable" (by decide) rfl
     (by decide) rfl (by decide)⟩

/-- C5, confirmed: a Request for a transcoder-backed format (wav or mp3)
with no transcoder on PATH or at the explicit path, none cached, and
auto-provisioning disabled or declined, fails immediately and never
invokes the provider. -/
theorem claim_C5_dependency (r : Request) (env : Env)
    (hreq : requiresTranscoder r.audio_format = true)
    (hchk : env.check_ffmpeg = false)
    (hexe : env.ff.exeExists = false)
    (hdecl : r.auto_download_ffmpeg = false ∨
      pyLower (pyStrip env.ffmpegPromptResponse) ≠ "y") :
    (download_youtube_video r env).success = false
  ∧ (download_youtube_video r env).providerCalls = 0
  ∧ (download_youtube_video r env).fileProduced = false := by
  have hgate : ffmpegGate r env = false := by
    unfold ffmpegGate
    rw [hreq, hchk]
    simp only [get_local_ffmpeg_path, hexe, Bool.false_eq_true, if_false, if_true]
    rcases hdecl with h | h
    · simp [h]
    · simp [h]
  unfold download_youtube_video
  simp [hgate]

/-- C5 witness: the concrete mp3 request with no transcoder fails with
zero provider invocations. -/
theorem claim_C5_witness :
    (download_youtube_video reqC5 envC1).success = false
  ∧ (download_youtube_video reqC5 envC1).providerCalls = 0
  ∧ (download_youtube_video reqC5 envC1).fileProduced = false :=
  claim_C5_dependency reqC5 envC1 (by decide) rfl rfl (Or.inl rfl)

/-- C10, counterexample: with an existing output file, a reply that is
not exactly `y` does NOT always cancel — the reply `Y` (not equal to
`y`) is normalized by `strip().lower()` and the conversion proceeds,
running the transcoder once and returning success. -/
theorem claim_C10_counterexample :
    "Y" ≠ "y"
  ∧ (convert_local_file_to_wav "d" "song.mp4" none none true envC10).success = true
  ∧ (convert_local_file_to_wav "d" "song.mp4" none none true envC10).transcoderRuns = 1 := by
  decide

/-- C10, amended: when the computed output path (input filename stem
plus `.wav` in the output directory) names an existing file, the
function prompts for confirmation, and unless the reply — after
whitespace trimming and lowercasing — is `y`, it returns `False` without
running the transcoder, leaving the existing output file untouched. -/
theorem claim_C10_amended (inputDir inputName : String)
    (output_path ffmpeg_path : Option String) (auto_download_ffmpeg : Bool)
    (env : ConvEnv)
    (hin : env.fileExists (inputDir ++ "/" ++ inputName) = true)
    (hfile : env.isFile (inputDir ++ "/" ++ inputName) = true)
    (c : String)
    (hcmd : resolve_ffmpeg_cmd ffmpeg_path auto_download_ffmpeg env = some c)
    (hout : env.fileExists
      ((output_path.getD inputDir) ++ "/" ++ pyStem inputName ++ ".wav") = true)
    (hresp : pyLower (pyStrip env.promptOverwrite) ≠ "y") :
    convert_local_file_to_wav inputDir inputName output_path ffmpeg_path
        auto_download_ffmpeg env =
      { success := false, transcoderRuns := 0, promptedOverwrite := true,
        outputFile :=
          some ((output_path.getD inputDir) ++ "/" ++ pyStem inputName ++ ".wav") } := by
  have hr : (pyLower (pyStrip env.promptOverwrite) == "y") = false :=
    beq_eq_false_iff_ne.mpr hresp
  unfold convert_local_file_to_wav
  cases output_path with
  | none =>
    simp only [Option.getD] at hout
    simp [hin, hfile, hcmd, hout, hr]
  | some d =>
    simp only [Option.getD] at hout
    simp [hin, hfile, hcmd, hout, hr]

/-- C10 witness: a concrete declined overwrite returns failure with the
transcoder never run. -/
theorem claim_C10_witness :
    convert_local_file_to_wav "d" "song.mp4" none none true envC10w =
      { success := false, transcoderRuns := 0, promptedOverwrite := true,
        outputFile := some "d/song.wav" } :=
  claim_C10_amended "d" "song.mp4" none none true envC10w rfl rfl
    "/usr/bin/ffmpeg" rfl (by decide) (by decide)

/-- C4 witness: a concrete tag-write exception yields a caught (ok)
result, and a concrete run's observables are unchanged by it. -/
theorem claim_C4_witness :
    (tag_audio_metadata "out.mp3" {} "mp3" { easyErr := some "boom" }).isOk = true
  ∧ obs (download_youtube_video reqC1w
        { envC2 with tagEnv := { easyErr := some "boom" } }) =
      obs (download_youtube_video reqC1w envC2) :=
  ⟨claim_C4_tagging.1 "out.mp3" {} "mp3" { easyErr := some "boom" },
   claim_C4_tagging.2 reqC1w envC2 { easyErr := some "boom" }⟩

/-- C8 witness: a concrete batch of three items whose second fails:
counts sum to three and the exit code is nonzero. -/
theorem claim_C8_witness :
    (batch_convert (fun a => a != "b") ["a", "b", "c"]).1 +
        (batch_convert (fun a => a != "b") ["a", "b", "c"]).2 = 3
  ∧ (mainExitCode (fun a => a != "b") ["a", "b", "c"] = 0 ↔
        ∀ x ∈ ["a", "b", "c"], (fun a => a != "b") x = true) :=
  ⟨(claim_C8_batch (fun a => a != "b") ["a", "b", "c"]).1,
   (claim_C8_batch (fun a => a != "b") ["a", "b", "c"]).2.2⟩
